import Mathlib

/-!
Verification development for the `ruma-api` crate: a shallow embedding of the
`create` endpoint's marshalling code (`src/lib.rs`, test module `create`,
PUT /_matrix/client/r0/directory/room/:room_alias) together with models of the
external collaborators it calls into (`serde_json`, `percent_encoding`,
`http`, `ruma-identifiers`), and of the parts of this repository that are
declared but whose files are not present (`error` module, the macro crate's
`api` validator and `derive_outgoing` modules), modelled from the spec.

Conventions:
  - Machine bytes are `Nat` (always < 256 where produced).
  - A Rust function that can panic is embedded as returning `Option _`, with
    `none` standing for the panic (`unwrap` / `expect`).
  - Fallible Rust functions returning `Result` are embedded as `Except`.
-/

/-- Opening-brace character, written via its code point. -/
def lbraceChar : Char := Char.ofNat 0x7b

/-- Closing-brace character, written via its code point. -/
def rbraceChar : Char := Char.ofNat 0x7d

/-- Value of an ASCII hex digit character, `none` if not a hex digit. -/
def hexVal (c : Char) : Option Nat :=
  if '0' ≤ c ∧ c ≤ '9' then some (c.toNat - '0'.toNat)
  else if 'a' ≤ c ∧ c ≤ 'f' then some (c.toNat - 'a'.toNat + 10)
  else if 'A' ≤ c ∧ c ≤ 'F' then some (c.toNat - 'A'.toNat + 10)
  else none

/-- Value of an ASCII hex digit given as a byte, `none` if not a hex digit. -/
def hexValByte (b : Nat) : Option Nat :=
  if 0x30 ≤ b ∧ b ≤ 0x39 then some (b - 0x30)
  else if 0x61 ≤ b ∧ b ≤ 0x66 then some (b - 0x61 + 10)
  else if 0x41 ≤ b ∧ b ≤ 0x46 then some (b - 0x41 + 10)
  else none

/-- Uppercase hex digit character for a value < 16. -/
def hexDigitUpper (n : Nat) : Char :=
  if n < 10 then Char.ofNat (0x30 + n) else Char.ofNat (0x41 + n - 10)

/-- UTF-8 encoding of one scalar value (models Rust `str::as_bytes` per char). -/
def utf8EncodeChar (c : Char) : List Nat :=
  let n := c.toNat
  if n < 0x80 then [n]
  else if n < 0x800 then [0xC0 + n / 0x40, 0x80 + n % 0x40]
  else if n < 0x10000 then
    [0xE0 + n / 0x1000, 0x80 + (n / 0x40) % 0x40, 0x80 + n % 0x40]
  else
    [0xF0 + n / 0x40000, 0x80 + (n / 0x1000) % 0x40,
      0x80 + (n / 0x40) % 0x40, 0x80 + n % 0x40]

/-- UTF-8 encoding of a character list. -/
def utf8Encode (cs : List Char) : List Nat :=
  (cs.map utf8EncodeChar).flatten

/-- Whether a byte is a UTF-8 continuation byte. -/
def utf8Cont (b : Nat) : Bool := 0x80 ≤ b && b < 0xC0

/-- UTF-8 decoding (models Rust `str::from_utf8` / `Cow::decode_utf8`):
rejects continuation-byte starts, overlong forms, surrogates and
out-of-range values, exactly as Rust's validator does. -/
def utf8Decode : List Nat → Option (List Char)
  | [] => some []
  | b :: bs =>
    if b < 0x80 then
      (utf8Decode bs).map (fun cs => Char.ofNat b :: cs)
    else if b < 0xC2 then none
    else if b < 0xE0 then
      match bs with
      | b2 :: bs2 =>
        if utf8Cont b2 then
          (utf8Decode bs2).map (fun cs => Char.ofNat ((b - 0xC0) * 0x40 + (b2 - 0x80)) :: cs)
        else none
      | _ => none
    else if b < 0xF0 then
      match bs with
      | b2 :: b3 :: bs3 =>
        if utf8Cont b2 && utf8Cont b3 then
          let n := (b - 0xE0) * 0x1000 + (b2 - 0x80) * 0x40 + (b3 - 0x80)
          if n < 0x800 then none
          else if 0xD800 ≤ n ∧ n < 0xE000 then none
          else (utf8Decode bs3).map (fun cs => Char.ofNat n :: cs)
        else none
      | _ => none
    else if b < 0xF5 then
      match bs with
      | b2 :: b3 :: b4 :: bs4 =>
        if utf8Cont b2 && utf8Cont b3 && utf8Cont b4 then
          let n := (b - 0xF0) * 0x40000 + (b2 - 0x80) * 0x1000 +
            (b3 - 0x80) * 0x40 + (b4 - 0x80)
          if n < 0x10000 ∨ 0x110000 ≤ n then none
          else (utf8Decode bs4).map (fun cs => Char.ofNat n :: cs)
        else none
      | _ => none
    else none

/-- Models `percent_encoding::percent_decode` (crate version 1.x): each
`%XY` with two hex digits becomes the byte `0xXY`; a `%` not followed by two
hex digits is passed through literally. -/
def percentDecode : List Nat → List Nat
  | [] => []
  | 0x25 :: h1 :: h2 :: r =>
    match hexValByte h1, hexValByte h2 with
    | some x, some y => (x * 16 + y) :: percentDecode r
    | _, _ => 0x25 :: percentDecode (h1 :: h2 :: r)
  | b :: rest => b :: percentDecode rest

/-- Splitting a character list at a separator character, keeping empty pieces
(models Rust `str::split(char)`: `""` yields `[""]`). -/
def splitCharGo (sep : Char) : List Char → List Char → List String
  | [], acc => [String.mk acc.reverse]
  | c :: cs, acc =>
    if c == sep then String.mk acc.reverse :: splitCharGo sep cs []
    else splitCharGo sep cs (c :: acc)

/-- Models Rust `str::split(char).collect::<Vec<_>>()`. -/
def splitChar (sep : Char) (cs : List Char) : List String :=
  splitCharGo sep cs []

/-- Replacement of all non-overlapping occurrences of a pattern, left to
right, with fuel bounded by the input length. -/
def strReplaceAux (pat rep : List Char) : Nat → List Char → List Char
  | 0, cs => cs
  | _fuel + 1, [] => []
  | fuel + 1, c :: rest =>
    if pat.isPrefixOf (c :: rest) && !pat.isEmpty then
      rep ++ strReplaceAux pat rep fuel ((c :: rest).drop pat.length)
    else c :: strReplaceAux pat rep fuel rest

/-- Models Rust `str::replace` (all non-overlapping occurrences, left to
right); only called with non-empty patterns in this development. -/
def strReplace (s pat rep : String) : String :=
  String.mk (strReplaceAux pat.data rep.data s.data.length s.data)

/-- Boolean string prefix test over the underlying character lists. -/
def strStartsWith (s p : String) : Bool :=
  p.data.isPrefixOf s.data

/-- Boolean string suffix test over the underlying character lists. -/
def strEndsWith (s suffix : String) : Bool :=
  suffix.data.isSuffixOf s.data

/-! ## JSON model (external collaborator `serde_json`) -/

/-- JSON values; numbers keep their source lexeme (no claim depends on
numeric interpretation). -/
inductive JsonValue where
  | null
  | bool (b : Bool)
  | num (lexeme : String)
  | str (s : String)
  | arr (elems : List JsonValue)
  | obj (fields : List (String × JsonValue))

/-- Parse/deserialization errors of the JSON collaborator, as carried inside
the crate's error values. -/
inductive JsonError where
  | parseFailure
  | typeMismatch
  | missingField
  | duplicateField
  | invalidValue
  deriving DecidableEq

/-- JSON whitespace per RFC 8259. -/
def isJsonWs (c : Char) : Bool :=
  c == ' ' || c == '\t' || c == '\n' || c == '\r'

/-- Skip leading JSON whitespace. -/
def skipWs : List Char → List Char
  | [] => []
  | c :: cs => if isJsonWs c then skipWs cs else c :: cs

/-- Parse four hex digits (for `\uXXXX` escapes). -/
def parseHex4 : List Char → Option (Nat × List Char)
  | a :: b :: c :: d :: rest => do
    let x ← hexVal a
    let y ← hexVal b
    let z ← hexVal c
    let w ← hexVal d
    pure ((((x * 16 + y) * 16 + z) * 16 + w), rest)
  | _ => none

/-- Parse the remainder of a JSON string literal (after the opening quote),
returning the decoded characters and the rest of the input. Handles the
escape forms of RFC 8259 including surrogate pairs; rejects lone surrogates
and raw control characters, as `serde_json` does. -/
def parseStringRest (fuel : Nat) (cs : List Char) : Option (List Char × List Char) :=
  match fuel, cs with
  | 0, _ => none
  | _, [] => none
  | fuel + 1, c :: rest =>
    if c == '"' then some ([], rest)
    else if c == '\\' then
      match rest with
      | [] => none
      | e :: rest2 =>
        if e == '"' then (parseStringRest fuel rest2).map (fun (s, r) => ('"' :: s, r))
        else if e == '\\' then (parseStringRest fuel rest2).map (fun (s, r) => ('\\' :: s, r))
        else if e == '/' then (parseStringRest fuel rest2).map (fun (s, r) => ('/' :: s, r))
        else if e == 'b' then (parseStringRest fuel rest2).map (fun (s, r) => (Char.ofNat 0x08 :: s, r))
        else if e == 'f' then (parseStringRest fuel rest2).map (fun (s, r) => (Char.ofNat 0x0C :: s, r))
        else if e == 'n' then (parseStringRest fuel rest2).map (fun (s, r) => ('\n' :: s, r))
        else if e == 'r' then (parseStringRest fuel rest2).map (fun (s, r) => ('\r' :: s, r))
        else if e == 't' then (parseStringRest fuel rest2).map (fun (s, r) => ('\t' :: s, r))
        else if e == 'u' then
          match parseHex4 rest2 with
          | none => none
          | some (n, rest3) =>
            if 0xD800 ≤ n ∧ n ≤ 0xDBFF then
              match rest3 with
              | c2 :: e2 :: rest4 =>
                if c2 == '\\' && e2 == 'u' then
                  match parseHex4 rest4 with
                  | none => none
                  | some (m, rest5) =>
                    if 0xDC00 ≤ m ∧ m ≤ 0xDFFF then
                      let cp := 0x10000 + (n - 0xD800) * 0x400 + (m - 0xDC00)
                      (parseStringRest fuel rest5).map (fun (s, r) => (Char.ofNat cp :: s, r))
                    else none
                else none
              | _ => none
            else if 0xDC00 ≤ n ∧ n ≤ 0xDFFF then none
            else (parseStringRest fuel rest3).map (fun (s, r) => (Char.ofNat n :: s, r))
        else none
    else if c.toNat < 0x20 then none
    else (parseStringRest fuel rest).map (fun (s, r) => (c :: s, r))

/-- Take a (possibly empty) run of ASCII digits. -/
def takeDigits : List Char → (List Char × List Char)
  | [] => ([], [])
  | c :: cs =>
    if '0' ≤ c ∧ c ≤ '9' then
      let (ds, rest) := takeDigits cs
      (c :: ds, rest)
    else ([], c :: cs)

/-- Parse the integer part of a JSON number after an optional sign:
`0` or a nonzero digit followed by digits. -/
def parseJsonInt (cs : List Char) : Option (List Char × List Char) :=
  match cs with
  | [] => none
  | c :: rest =>
    if c == '0' then some ([c], rest)
    else if '1' ≤ c ∧ c ≤ '9' then
      let (ds, r) := takeDigits rest
      some (c :: ds, r)
    else none

/-- Parse an optional JSON fraction part (`.` digits). -/
def parseJsonFrac (cs : List Char) : Option (List Char × List Char) :=
  match cs with
  | '.' :: rest =>
    match takeDigits rest with
    | ([], _) => none
    | (ds, r) => some ('.' :: ds, r)
  | _ => some ([], cs)

/-- Parse an optional JSON exponent part (`e`/`E`, optional sign, digits). -/
def parseJsonExp (cs : List Char) : Option (List Char × List Char) :=
  match cs with
  | c :: rest =>
    if c == 'e' || c == 'E' then
      match rest with
      | s :: rest2 =>
        if s == '+' || s == '-' then
          match takeDigits rest2 with
          | ([], _) => none
          | (ds, r) => some (c :: s :: ds, r)
        else
          match takeDigits rest with
          | ([], _) => none
          | (ds, r) => some (c :: ds, r)
      | [] => none
    else some ([], c :: rest)
  | [] => some ([], [])

/-- Parse a JSON number (grammar of RFC 8259), returning its lexeme. -/
def parseJsonNumber (cs : List Char) : Option (List Char × List Char) :=
  let withSign :=
    match cs with
    | '-' :: rest => (parseJsonInt rest).map (fun (ds, r) => ('-' :: ds, r))
    | _ => parseJsonInt cs
  match withSign with
  | none => none
  | some (intPart, r1) =>
    match parseJsonFrac r1 with
    | none => none
    | some (fracPart, r2) =>
      match parseJsonExp r2 with
      | none => none
      | some (expPart, r3) => some (intPart ++ fracPart ++ expPart, r3)

mutual

/-- Parse one JSON value (fuel-indexed; callers supply fuel at least the
input length plus one, which suffices since every recursive call consumes
input). -/
def parseValueF : Nat → List Char → Option (JsonValue × List Char)
  | 0, _ => none
  | fuel + 1, input =>
    match skipWs input with
    | [] => none
    | c :: rest =>
      if c == 'n' then
        match rest with
        | 'u' :: 'l' :: 'l' :: r => some (.null, r)
        | _ => none
      else if c == 't' then
        match rest with
        | 'r' :: 'u' :: 'e' :: r => some (.bool true, r)
        | _ => none
      else if c == 'f' then
        match rest with
        | 'a' :: 'l' :: 's' :: 'e' :: r => some (.bool false, r)
        | _ => none
      else if c == '"' then
        (parseStringRest (rest.length + 1) rest).map (fun (s, r) => (.str (String.mk s), r))
      else if c == '-' || ('0' ≤ c ∧ c ≤ '9') then
        (parseJsonNumber (c :: rest)).map (fun (ds, r) => (.num (String.mk ds), r))
      else if c == '[' then
        match skipWs rest with
        | ']' :: r => some (.arr [], r)
        | other => (parseArrElems fuel other).map (fun (es, r) => (.arr es, r))
      else if c == lbraceChar then
        match skipWs rest with
        | d :: r =>
          if d == rbraceChar then some (.obj [], r)
          else (parseObjMembers fuel (d :: r)).map (fun (fs, r2) => (.obj fs, r2))
        | [] => none
      else none

/-- Parse one or more comma-separated JSON array elements and the closing
bracket. -/
def parseArrElems : Nat → List Char → Option (List JsonValue × List Char)
  | 0, _ => none
  | fuel + 1, input =>
    match parseValueF fuel input with
    | none => none
    | some (v, rest) =>
      match skipWs rest with
      | ',' :: r => (parseArrElems fuel r).map (fun (es, r2) => (v :: es, r2))
      | ']' :: r => some ([v], r)
      | _ => none

/-- Parse one or more comma-separated JSON object members and the closing
brace. -/
def parseObjMembers : Nat → List Char → Option (List (String × JsonValue) × List Char)
  | 0, _ => none
  | fuel + 1, input =>
    match skipWs input with
    | '"' :: rest =>
      match parseStringRest (rest.length + 1) rest with
      | none => none
      | some (key, r1) =>
        match skipWs r1 with
        | ':' :: r2 =>
          match parseValueF fuel r2 with
          | none => none
          | some (v, r3) =>
            match skipWs r3 with
            | ',' :: r4 =>
              (parseObjMembers fuel r4).map (fun (fs, r5) => ((String.mk key, v) :: fs, r5))
            | d :: r4 =>
              if d == rbraceChar then some ([(String.mk key, v)], r4) else none
            | [] => none
        | _ => none
    | _ => none

end

/-- Models `serde_json` top-level parsing: one JSON value, then only trailing
whitespace. -/
def parseJsonTop (s : String) : Except JsonError JsonValue :=
  match parseValueF (s.data.length + 1) s.data with
  | none => .error .parseFailure
  | some (v, rest) =>
    match skipWs rest with
    | [] => .ok v
    | _ => .error .parseFailure

/-- Models `serde_json` string escaping on output: quote, backslash, and the
control characters (short escapes for the common ones, `\u00XX` otherwise). -/
def jsonEscapeChar (c : Char) : List Char :=
  if c == '"' then ['\\', '"']
  else if c == '\\' then ['\\', '\\']
  else if c.toNat == 0x08 then ['\\', 'b']
  else if c.toNat == 0x09 then ['\\', 't']
  else if c.toNat == 0x0A then ['\\', 'n']
  else if c.toNat == 0x0C then ['\\', 'f']
  else if c.toNat == 0x0D then ['\\', 'r']
  else if c.toNat < 0x20 then
    ['\\', 'u', '0', '0', hexDigitUpper (c.toNat / 16), hexDigitUpper (c.toNat % 16)]
  else [c]

/-- A string as a JSON string literal (with quotes), as `serde_json` emits. -/
def encodeJsonString (s : String) : String :=
  String.mk ('"' :: (s.data.map jsonEscapeChar).flatten ++ ['"'])

/-! ## http model (external collaborator `http`) -/

/-- HTTP method tokens (only the ones the endpoint description language
names; the endpoint under verification uses `PUT`). -/
inductive Method where
  | GET
  | POST
  | PUT
  | DELETE
  deriving DecidableEq

/-- Allowed byte in the path portion of `http::uri::PathAndQuery`
(the crate's byte-class table; `?` starts the query and `#` the dropped
fragment, so neither appears here). -/
def uriPathByte (n : Nat) : Bool :=
  n == 0x21 || (0x24 ≤ n && n ≤ 0x3B) || n == 0x3D || (0x40 ≤ n && n ≤ 0x5F) ||
    (0x61 ≤ n && n ≤ 0x7A) || n == 0x7C || n == 0x7E

/-- Allowed byte in the query portion of `http::uri::PathAndQuery`. -/
def uriQueryByte (n : Nat) : Bool :=
  n == 0x21 || (0x24 ≤ n && n ≤ 0x3B) || n == 0x3D || (0x3F ≤ n && n ≤ 0x7E)

/-- Scan the query portion until end or `#` (which begins the fragment and is
dropped); an invalid byte fails the whole URI parse. -/
def scanUriQuery : List Char → Option (List Char)
  | [] => some []
  | c :: cs =>
    if c == '#' then some []
    else if uriQueryByte c.toNat then (scanUriQuery cs).map (fun q => c :: q)
    else none

/-- Scan the path portion until end, `?` (query begins) or `#` (fragment,
dropped); an invalid byte fails the whole URI parse. -/
def scanUriPath : List Char → Option (List Char × Option (List Char))
  | [] => some ([], none)
  | c :: cs =>
    if c == '#' then some ([], none)
    else if c == '?' then (scanUriQuery cs).map (fun q => ([], some q))
    else if uriPathByte c.toNat then
      (scanUriPath cs).map (fun (p, q) => (c :: p, q))
    else none

/-- Models `http::Uri` parsing of an origin-form URI string (the only form the
generated code builds): requires a leading `/`, splits path from query, and
drops everything from the first `#` on (the fragment is not stored by the
`http` crate). Returns `none` when the string contains a byte the crate
rejects. -/
def uriParseOriginForm (s : String) : Option (String × Option String) :=
  match s.data with
  | '/' :: _ =>
    (scanUriPath s.data).map (fun (p, q) => (String.mk p, q.map String.mk))
  | _ => none

/-- A wire request: the observable parts of `http::Request<Vec<u8>>` this
endpoint touches. The body is kept as a string of Unicode characters; the
source manipulates it as UTF-8 bytes, and no settled claim distinguishes a
non-UTF-8 body from an otherwise malformed one. -/
structure HttpRequest where
  method : Method
  path : String
  query : Option String
  body : String
  deriving DecidableEq

/-- A wire response: the observable parts of `http::Response<Vec<u8>>` this
endpoint touches (`status().as_u16()`, the content-type header it sets, and
the body). -/
structure HttpResponse where
  status : Nat
  content_type : Option String
  body : String
  deriving DecidableEq

/-! ## Error types

Modelled from the spec: the crate declares `pub mod error;` but the module's
file is not under src/. §6 of the spec fixes the shapes: a
`RequestDeserializationError` "wraps the original malformed wire request plus
the underlying parse error", `ResponseDeserializationError` is symmetric,
`ServerError` "wraps a wire response whose status signaled failure", and
`IntoHttpError` covers construction-time failures. -/

/-- Modelled from the spec: the underlying parse error inside a
deserialization error — either a JSON error or a UTF-8 decoding error (the
two error sources the create endpoint's incoming conversion wraps). -/
inductive DeserializationError where
  | json (e : JsonError)
  | utf8
  deriving DecidableEq

/-- Modelled from the spec: wraps the original malformed wire request plus
the underlying parse error. -/
structure RequestDeserializationError where
  inner : DeserializationError
  http_request : HttpRequest
  deriving DecidableEq

/-- Modelled from the spec: symmetric to `RequestDeserializationError`. -/
structure ResponseDeserializationError where
  inner : DeserializationError
  http_response : HttpResponse
  deriving DecidableEq

/-- Modelled from the spec: wraps a wire response whose status signaled
failure. -/
structure ServerError where
  response : HttpResponse
  deriving DecidableEq

/-- Modelled from the spec: error converting a wire request into a typed
request. -/
inductive FromHttpRequestError where
  | deserialization (e : RequestDeserializationError)
  deriving DecidableEq

/-- Modelled from the spec: error converting a wire response into a typed
response; status ≥ 400 yields the `Http` classification. -/
inductive FromHttpResponseError where
  | http (e : ServerError)
  | deserialization (e : ResponseDeserializationError)
  deriving DecidableEq

/-- Modelled from the spec: construction-time failures when converting a
typed value into a wire message (e.g. a body serialization error). -/
inductive IntoHttpError where
  | json (e : JsonError)
  deriving DecidableEq

/-! ## Identifier models (external collaborator `ruma-identifiers`)

Approximation of the external crate's validation: an identifier is its
string, which must start with the sigil of its kind and contain a `:`
separating localpart from server name. Serialization (`to_string`, serde
`Serialize`) is the identifier string itself; serde `Deserialize` expects a
JSON string whose contents pass the validation. -/

/-- A Matrix room identifier (sigil `!`), as its string. -/
structure RoomId where
  id : String
  deriving DecidableEq

/-- A Matrix room alias (sigil `#`), as its string. -/
structure RoomAliasId where
  id : String
  deriving DecidableEq

/-- Validation of a room-id string (models `ruma-identifiers`): leading `!`
sigil and a `:` separator after it. -/
def RoomId.isValidStr (s : String) : Bool :=
  strStartsWith s "!" && (s.data.drop 1).contains ':'

/-- Validation of a room-alias string (models `ruma-identifiers`): leading
`#` sigil and a `:` separator after it. -/
def RoomAliasId.isValidStr (s : String) : Bool :=
  strStartsWith s "#" && (s.data.drop 1).contains ':'

/-- Models serde deserialization of a `RoomAliasId` from a JSON document
(`serde_json::from_str::<RoomAliasId>`): the document must be a JSON string
whose contents validate as a room alias. -/
def serdeFromStrRoomAliasId (s : String) : Except JsonError RoomAliasId :=
  match parseJsonTop s with
  | .error e => .error e
  | .ok (.str v) => if RoomAliasId.isValidStr v then .ok ⟨v⟩ else .error .invalidValue
  | .ok _ => .error .typeMismatch

/-! ## `ruma_api` core types (src/lib.rs) -/

/-- Metadata about an API endpoint (src/lib.rs, `struct Metadata`). -/
structure Metadata where
  description : String
  method : Method
  name : String
  path : String
  rate_limited : Bool
  requires_authentication : Bool

namespace create

/-! The `create` endpoint: PUT /_matrix/client/r0/directory/room/:room_alias
(src/lib.rs, `mod tests::create`). -/

/-- A request to create a new room alias (src/lib.rs, `struct Request`):
`room_id` travels in the body, `room_alias` in the path. -/
structure Request where
  room_id : RoomId
  room_alias : RoomAliasId
  deriving DecidableEq

/-- The Incoming associated type of `Request`
(src/lib.rs: `impl Outgoing for Request { type Incoming = Self; }`). -/
def Request.Incoming : Type := Request

/-- The endpoint metadata constant (src/lib.rs, `Request::METADATA`). -/
def METADATA : Metadata where
  description := "Add an alias to a room."
  method := Method.PUT
  name := "create_alias"
  path := "/_matrix/client/r0/directory/room/:room_alias"
  rate_limited := false
  requires_authentication := true

/-- The private body struct (src/lib.rs, `struct RequestBody`): the JSON body
is the object with the single field `room_id`. -/
structure RequestBody where
  room_id : RoomId
  deriving DecidableEq

/-- Models `serde_json::to_vec(&RequestBody { room_id })`: serializing the
derived `Serialize` of a one-field struct whose field serializes as a string.
Infallible for this shape. -/
def RequestBody.toJsonVec (b : RequestBody) : String :=
  String.mk [lbraceChar] ++ encodeJsonString "room_id" ++ ":" ++
    encodeJsonString b.room_id.id ++ String.mk [rbraceChar]

/-- Models `serde_json::from_slice::<RequestBody>`: parse a JSON document,
require a JSON object, extract the `room_id` member (other members are
ignored, as serde does by default; a duplicate `room_id` is an error), and
validate its string contents as a `RoomId`. -/
def serdeFromSliceRequestBody (s : String) : Except JsonError RequestBody :=
  match parseJsonTop s with
  | .error e => .error e
  | .ok (.obj fields) =>
    match fields.filter (fun f => f.1 == "room_id") with
    | [] => .error .missingField
    | [(_, .str v)] =>
      if RoomId.isValidStr v then .ok ⟨⟨v⟩⟩ else .error .invalidValue
    | [(_, _)] => .error .typeMismatch
    | _ => .error .duplicateField
  | .ok _ => .error .typeMismatch

/-- `TryFrom<Request> for http::Request<Vec<u8>>` (src/lib.rs lines 135-156):
substitute the alias string into the path template (no percent-encoding),
serialize the body struct, and build the `http::Request`. The builder's
`.expect("http request building to succeed")` panic — reachable when the URI
string fails to parse — is the `none` outcome. -/
def Request.tryIntoHttp (request : Request) : Option (Except IntoHttpError HttpRequest) :=
  let metadata := METADATA
  let path := strReplace metadata.path ":room_alias" request.room_alias.id
  let request_body : RequestBody := { room_id := request.room_id }
  let body := RequestBody.toJsonVec request_body
  match uriParseOriginForm path with
  | some (p, q) =>
    some (.ok { method := metadata.method, path := p, query := q, body := body })
  | none => none

/-- `TryFrom<http::Request<Vec<u8>>> for Request` (src/lib.rs lines 158-190):
parse the body first (early return on failure), then split the path after its
leading `/` on `/`, take segment index 5 — `.get(5).unwrap()`, the `none`
outcome, panics when absent — percent-decode it, UTF-8-decode it, and parse
the result as a JSON document for the alias. Every error return carries the
original request. -/
def Request.tryFromHttp (request : HttpRequest) : Option (Except FromHttpRequestError Request) :=
  match serdeFromSliceRequestBody request.body with
  | .error err =>
    some (.error (.deserialization { inner := .json err, http_request := request }))
  | .ok request_body =>
    match (splitChar '/' (request.path.data.drop 1)).get? 5 with
    | none => none
    | some segment =>
      match utf8Decode (percentDecode (utf8Encode segment.data)) with
      | none =>
        some (.error (.deserialization { inner := .utf8, http_request := request }))
      | some decoded =>
        match serdeFromStrRoomAliasId (String.mk decoded) with
        | .error err =>
          some (.error (.deserialization { inner := .json err, http_request := request }))
        | .ok a =>
          some (.ok { room_id := request_body.room_id, room_alias := a })

/-- The response to a request to create a new room alias
(src/lib.rs, `struct Response;` — no fields). -/
structure Response where
  deriving DecidableEq

/-- The Incoming associated type of `Response`
(src/lib.rs: `impl Outgoing for Response { type Incoming = Self; }`). -/
def Response.Incoming : Type := Response

/-- `TryFrom<http::Response<Vec<u8>>> for Response` (src/lib.rs lines
205-215): status below 400 is a success; otherwise the raw response is
wrapped in `ServerError` under the `Http` classification. -/
def Response.tryFromHttp (http_response : HttpResponse) : Except FromHttpResponseError Response :=
  if http_response.status < 400 then .ok {}
  else .error (.http { response := http_response })

/-- `TryFrom<Response> for http::Response<Vec<u8>>` (src/lib.rs lines
217-228): a fixed 200 response with content-type application/json and body
`\x7b\x7d` (the empty JSON object); its `.unwrap()` never fires. -/
def Response.tryIntoHttp (_ : Response) : Option (Except IntoHttpError HttpResponse) :=
  some (.ok { status := 200
              content_type := some "application/json"
              body := String.mk [lbraceChar, rbraceChar] })

end create

deriving instance DecidableEq for Except

/-! ## The percent-encoded form of a path segment

Used only to state the spec's claim about the outgoing path; the generated
code under verification never percent-encodes. This follows the
`percent_encoding` crate's PATH_SEGMENT_ENCODE_SET. -/

/-- Byte escaped by PATH_SEGMENT_ENCODE_SET: controls, non-ASCII, space,
quote, number sign, angle brackets, question mark, backquote, braces,
percent and slash. -/
def pathSegmentEncodeByte (n : Nat) : Bool :=
  n < 0x20 || 0x7F ≤ n || n == 0x20 || n == 0x22 || n == 0x23 || n == 0x3C ||
    n == 0x3E || n == 0x3F || n == 0x60 || n == 0x7B || n == 0x7D ||
    n == 0x25 || n == 0x2F

/-- Percent-encoding of a string as one URI path segment
(models `percent_encoding::utf8_percent_encode` with
PATH_SEGMENT_ENCODE_SET). -/
def percentEncodePathSegment (s : String) : String :=
  String.mk ((utf8Encode s.data).map (fun b =>
    if pathSegmentEncodeByte b then ['%', hexDigitUpper (b / 16), hexDigitUpper (b % 16)]
    else [Char.ofNat b])).flatten

/-! ## Field classification and schema validation

Modelled from the spec: the macro crate's `api` module (endpoint description
parser, field classifier/validator and model builder) is referenced by
`ruma-api-macros/src/lib.rs` (`mod api;`) but its file is not under src/.
The definitions below follow §3 and §4.2-4.3 of the spec; only the
exclusivity invariants the claims exercise are modelled. -/

/-- Modelled from the spec: the closed set of field placements (§3). -/
inductive FieldKind where
  | body
  | header (header_name : String)
  | path
  | query
  | queryMap
  | newtypeBody
  | rawNewtypeBody
  deriving DecidableEq

/-- A classified request/response field: name, declared type (as text) and
placement. -/
structure SchemaField where
  name : String
  ty : String
  kind : FieldKind
  deriving DecidableEq

/-- Whether a placement is one of the two newtype-body kinds. -/
def FieldKind.isNewtypeKind : FieldKind → Bool
  | .newtypeBody => true
  | .rawNewtypeBody => true
  | _ => false

/-- Whether a placement is the ordinary JSON-object body placement. -/
def FieldKind.isPlainBody : FieldKind → Bool
  | .body => true
  | _ => false

/-- Number of newtype-body (`NewtypeBody` or `RawNewtypeBody`) fields. -/
def newtypeBodyCount (fs : List SchemaField) : Nat :=
  (fs.filter fun f => f.kind.isNewtypeKind).length

/-- Number of ordinary `Body` fields. -/
def plainBodyCount (fs : List SchemaField) : Nat :=
  (fs.filter fun f => f.kind.isPlainBody).length

/-- Number of `QueryMap` fields. -/
def queryMapCount (fs : List SchemaField) : Nat :=
  (fs.filter fun f => f.kind == .queryMap).length

/-- Number of single `Query` fields. -/
def singleQueryCount (fs : List SchemaField) : Nat :=
  (fs.filter fun f => f.kind == .query).length

/-- Modelled from the spec: the set-level exclusivity validation over one
field list (§3 invariants, §4.2): a newtype-body field excludes ordinary
body fields; at most one newtype-body field; a query-map field excludes
single query fields; at most one query-map field. -/
def validateFields (fs : List SchemaField) : Except String Unit :=
  if 1 ≤ newtypeBodyCount fs ∧ 1 ≤ plainBodyCount fs then
    .error "a newtype body field cannot be combined with normal body fields"
  else if 2 ≤ newtypeBodyCount fs then
    .error "only one field may be marked as the newtype body"
  else if 1 ≤ queryMapCount fs ∧ 1 ≤ singleQueryCount fs then
    .error "a query map field cannot be combined with single query fields"
  else if 2 ≤ queryMapCount fs then
    .error "only one field may be marked as the query map"
  else .ok ()

/-- The raw, unvalidated endpoint description: metadata plus the two ordered
field lists. -/
structure RawApi where
  metadata : Metadata
  request : List SchemaField
  response : List SchemaField

/-- The validated endpoint model. -/
structure Api where
  metadata : Metadata
  request : List SchemaField
  response : List SchemaField

/-- Modelled from the spec: `Api::try_from(RawApi)` — build the validated
model, failing with a schema error when either field set violates an
exclusivity invariant (§4.3). -/
def Api.tryFrom (raw : RawApi) : Except String Api :=
  match validateFields raw.request with
  | .error e => .error e
  | .ok _ =>
    match validateFields raw.response with
    | .error e => .error e
    | .ok _ =>
      .ok { metadata := raw.metadata, request := raw.request, response := raw.response }

/-! ## The Outgoing derive

Modelled from the spec: the macro crate's `derive_outgoing` module is
referenced by `ruma-api-macros/src/lib.rs` (`mod derive_outgoing;`) but its
file is not under src/. §4.5 of the spec and the derive's documentation fix
the behavior: with no `wrap_incoming` annotation on any field the incoming
type equals the type itself; otherwise a shadow struct `IncomingT` is
produced whose annotated fields' types are rewrapped. -/

/-- A field of a struct handed to the Outgoing derive; `wrap_incoming`
records whether the field carries the fallible-wrapping annotation. -/
structure FieldDef where
  name : String
  ty : String
  wrap_incoming : Bool
  deriving DecidableEq

/-- A struct definition handed to the Outgoing derive. -/
structure StructDef where
  name : String
  fields : List FieldDef
  deriving DecidableEq

/-- Modelled from the spec: the structural transform of
`expand_derive_outgoing` — the definition of the Incoming type it
generates. -/
def expand_derive_outgoing (s : StructDef) : StructDef :=
  if s.fields.any (fun f => f.wrap_incoming) then
    { name := "Incoming" ++ s.name
      fields := s.fields.map fun f =>
        if f.wrap_incoming then { f with ty := "Incoming" ++ f.ty } else f }
  else s

/-! ## Concrete inputs used by the counterexamples and witnesses -/

namespace create

/-- The spec's example scenario input (§8). -/
def exampleRequest : Request :=
  { room_id := ⟨"!abc:example.org"⟩, room_alias := ⟨"#room:example.org"⟩ }

/-- The wire request the code actually produces for `exampleRequest`: the
alias, inserted without percent-encoding, begins with `#`, so the URI parser
drops it as a fragment. -/
def exampleWire : HttpRequest where
  method := Method.PUT
  path := "/_matrix/client/r0/directory/room/"
  query := none
  body := String.mk [lbraceChar] ++ "\"room_id\":\"!abc:example.org\"" ++ String.mk [rbraceChar]

/-- A wire request with a valid body but a one-segment path. -/
def shortPathRequest : HttpRequest where
  method := Method.PUT
  path := "/"
  query := none
  body := exampleWire.body

/-- A wire request whose body is not JSON and whose path is also too short
to hold the alias segment. -/
def badBodyRequest : HttpRequest where
  method := Method.PUT
  path := "/"
  query := none
  body := "not json"

/-- A wire request whose first five path segments differ arbitrarily from
the template's literal segments, while segment index 5 percent-decodes to a
JSON string holding a valid alias. -/
def oddSegmentsRequest : HttpRequest where
  method := Method.PUT
  path := "/x/y/z/w/v/%22%23room:example.org%22"
  query := none
  body := exampleWire.body

/-- A 404 wire response whose body is the valid JSON object the success path
would expect. -/
def notFoundResponse : HttpResponse where
  status := 404
  content_type := some "application/json"
  body := String.mk [lbraceChar, rbraceChar]

end create

/-! ## Theorems -/

/-- Claim C1: the claim states that converting a typed `Request` to a wire
request and back preserves `room_id` and `room_alias`. On the code this
fails: the outgoing conversion substitutes the alias into the path without
percent-encoding, its leading `#` makes the URI parser drop the whole
segment as a fragment, and the incoming conversion JSON-parses the (empty)
segment, so the round conversion returns a `RequestDeserializationError`
instead of the original request. This theorem evaluates both directions at
the spec's own example input. -/
theorem create.roundtrip_fails_on_example :
    create.Request.tryIntoHttp create.exampleRequest = some (.ok create.exampleWire) ∧
    create.Request.tryFromHttp create.exampleWire =
      some (.error (.deserialization
        { inner := .json .parseFailure, http_request := create.exampleWire })) :=
  ⟨by decide, by decide⟩

/-- Claim C2, counterexample: the produced wire request's URI path does not
end in the percent-encoded form of the alias (`%23room:example.org` under
PATH_SEGMENT_ENCODE_SET) — it does not even end in the alias's server-name
characters, which no percent-encoding would alter, because the unencoded `#`
made the URI parser drop the segment as a fragment. -/
theorem create.into_http_drops_unencoded_alias :
    create.Request.tryIntoHttp create.exampleRequest = some (.ok create.exampleWire) ∧
    percentEncodePathSegment "#room:example.org" = "%23room:example.org" ∧
    strEndsWith create.exampleWire.path "%23room:example.org" = false ∧
    strEndsWith create.exampleWire.path "example.org" = false :=
  ⟨by decide, by decide, by decide, by decide⟩

/-- Claim C2, amended: converting the example typed value produces a wire
request whose URI path is `/_matrix/client/r0/directory/room/` — the alias
is substituted without percent-encoding and, beginning with `#`, is dropped
by the URI parser as a fragment — and whose body is exactly the JSON object
with the single member `room_id` mapped to `!abc:example.org`. -/
theorem create.into_http_example_path_and_body :
    create.Request.tryIntoHttp create.exampleRequest = some (.ok create.exampleWire) ∧
    create.exampleWire.path = "/_matrix/client/r0/directory/room/" ∧
    create.exampleWire.body =
      String.mk [lbraceChar] ++ "\"room_id\":\"!abc:example.org\"" ++ String.mk [rbraceChar] :=
  ⟨by decide, by decide, by decide⟩

/-- Claim C3: for every wire response whose status code is at least 400,
the conversion to the typed `Response` yields the `ServerError`
classification (`FromHttpResponseError.http`) carrying the raw wire
response, whatever the body and headers contain — no field of the body is
inspected. -/
theorem create.response_server_error_above_400
    (resp : HttpResponse) (h : 400 ≤ resp.status) :
    create.Response.tryFromHttp resp = .error (.http { response := resp }) := by
  unfold create.Response.tryFromHttp
  rw [if_neg (by omega)]

/-- Witness for claim C3: a 404 response whose body is the valid JSON object
the success path would expect is still classified as `ServerError`. -/
theorem create.response_server_error_at_404 :
    create.Response.tryFromHttp create.notFoundResponse =
      .error (.http { response := create.notFoundResponse }) :=
  create.response_server_error_above_400 create.notFoundResponse (by decide)

/-- Claim C4: the claim states that every marshalling conversion returns a
`Result` for every input and never panics, in particular for wire requests
whose path has fewer than six segments. On the code this fails: the incoming
conversion calls `path_segments.get(5).unwrap()`, which panics (the `none`
outcome of the embedding) on a one-segment path even though the body parsed
successfully. -/
theorem create.from_http_short_path_panics :
    create.Request.tryFromHttp create.shortPathRequest = none := by decide

/-- Claim C5: the incoming request conversion parses the body first: whenever
the body fails to parse, the conversion returns the body's
`RequestDeserializationError` (carrying the original request) immediately,
for every path — malformed or too short to index — without decoding or
parsing any path segment. -/
theorem create.body_parse_failure_short_circuits
    (req : HttpRequest) (e : JsonError)
    (h : create.serdeFromSliceRequestBody req.body = .error e) :
    create.Request.tryFromHttp req =
      some (.error (.deserialization { inner := .json e, http_request := req })) := by
  unfold create.Request.tryFromHttp
  rw [h]

/-- Witness for claim C5: a request whose body is not JSON and whose path is
a single segment (which would make the path-extraction step panic) still
yields the body-parse error. -/
theorem create.body_parse_failure_short_circuits_example :
    create.Request.tryFromHttp create.badBodyRequest =
      some (.error (.deserialization
        { inner := .json .parseFailure, http_request := create.badBodyRequest })) :=
  create.body_parse_failure_short_circuits create.badBodyRequest .parseFailure (by decide)

/-- Helper: a field list with a newtype-body field next to an ordinary body
field, or with two newtype-body fields, fails the exclusivity validation. -/
theorem validateFields_error_of_bad_body (fs : List SchemaField)
    (h : (1 ≤ newtypeBodyCount fs ∧ 1 ≤ plainBodyCount fs) ∨ 2 ≤ newtypeBodyCount fs) :
    ∃ e, validateFields fs = .error e := by
  unfold validateFields
  rcases h with h1 | h2
  · rw [if_pos h1]
    exact ⟨_, rfl⟩
  · by_cases hc : 1 ≤ newtypeBodyCount fs ∧ 1 ≤ plainBodyCount fs
    · rw [if_pos hc]
      exact ⟨_, rfl⟩
    · rw [if_neg hc, if_pos h2]
      exact ⟨_, rfl⟩

/-- Claim C6: an endpoint schema whose request or response field list
declares both a newtype-body field (`NewtypeBody` or `RawNewtypeBody`) and
at least one ordinary `Body` field fails to build with a schema error, for
every such schema regardless of field count; likewise a schema with two
newtype-body fields fails to build. -/
theorem api_newtype_body_exclusivity_fails_to_build
    (raw : RawApi)
    (h : ((1 ≤ newtypeBodyCount raw.request ∧ 1 ≤ plainBodyCount raw.request) ∨
            2 ≤ newtypeBodyCount raw.request) ∨
         ((1 ≤ newtypeBodyCount raw.response ∧ 1 ≤ plainBodyCount raw.response) ∨
            2 ≤ newtypeBodyCount raw.response)) :
    ∃ e, Api.tryFrom raw = .error e := by
  unfold Api.tryFrom
  rcases h with hreq | hresp
  · obtain ⟨e, he⟩ := validateFields_error_of_bad_body _ hreq
    rw [he]
    exact ⟨e, rfl⟩
  · cases hr : validateFields raw.request with
    | error e => exact ⟨e, rfl⟩
    | ok u =>
      obtain ⟨e, he⟩ := validateFields_error_of_bad_body _ hresp
      exact ⟨e, by simp only [he]⟩

/-- Witness for claim C6: a schema with a raw-newtype-body field and an
ordinary body field in its request fails to build. -/
theorem api_newtype_body_exclusivity_fails_to_build_example :
    ∃ e, Api.tryFrom
      { metadata := create.METADATA
        request := [⟨"file", "Vec<u8>", .rawNewtypeBody⟩, ⟨"foo", "String", .body⟩]
        response := [] } = .error e :=
  api_newtype_body_exclusivity_fails_to_build _ (Or.inl (Or.inl (by decide)))

/-- Claim C7: every error produced by a failed wire-to-typed conversion
preserves the original wire payload: each `RequestDeserializationError`
returned by the incoming request conversion carries the original http
request (alongside the underlying parse error it wraps), and each
`ServerError` carries the original http response. -/
theorem create.errors_carry_original_payload :
    (∀ (req : HttpRequest) (d : RequestDeserializationError),
      create.Request.tryFromHttp req = some (.error (.deserialization d)) →
      d.http_request = req) ∧
    (∀ (resp : HttpResponse) (e : ServerError),
      create.Response.tryFromHttp resp = .error (.http e) → e.response = resp) := by
  constructor
  · intro req d h
    unfold create.Request.tryFromHttp at h
    split at h
    · simp only [Option.some.injEq, Except.error.injEq,
        FromHttpRequestError.deserialization.injEq] at h
      rw [← h]
    · split at h
      · cases h
      · split at h
        · simp only [Option.some.injEq, Except.error.injEq,
            FromHttpRequestError.deserialization.injEq] at h
          rw [← h]
        · split at h
          · simp only [Option.some.injEq, Except.error.injEq,
              FromHttpRequestError.deserialization.injEq] at h
            rw [← h]
          · simp at h
  · intro resp e h
    unfold create.Response.tryFromHttp at h
    split at h
    · cases h
    · simp only [Except.error.injEq, FromHttpResponseError.http.injEq] at h
      rw [← h]

/-- Witness for claim C7: the deserialization error produced for a
malformed-body request carries that very request. -/
theorem create.errors_carry_original_payload_example :
    RequestDeserializationError.http_request
      { inner := .json .parseFailure, http_request := create.badBodyRequest } =
      create.badBodyRequest :=
  create.errors_carry_original_payload.1 create.badBodyRequest
    { inner := .json .parseFailure, http_request := create.badBodyRequest } (by decide)

/-- Claim C8: for a type with no fallible-wrapping annotation on any field
the Outgoing association is the identity — the derive produces the struct
itself, with no structural transformation — and the create endpoint's
`Request` and `Response` declare `Incoming = Self`. -/
theorem outgoing_identity_without_wrap_incoming :
    (∀ s : StructDef, (∀ f ∈ s.fields, f.wrap_incoming = false) →
      expand_derive_outgoing s = s) ∧
    create.Request.Incoming = create.Request ∧
    create.Response.Incoming = create.Response := by
  refine ⟨?_, rfl, rfl⟩
  intro s h
  have hany : s.fields.any (fun f => f.wrap_incoming) = false := by
    cases hx : s.fields.any (fun f => f.wrap_incoming) with
    | false => rfl
    | true =>
      obtain ⟨f, hf, hw⟩ := List.any_eq_true.mp hx
      rw [h f hf] at hw
      cases hw
  unfold expand_derive_outgoing
  rw [hany]
  simp

/-- Witness for claim C8: a two-field struct with no annotations maps to
itself. -/
theorem outgoing_identity_without_wrap_incoming_example :
    expand_derive_outgoing
      { name := "Request"
        fields := [⟨"room_id", "RoomId", false⟩, ⟨"room_alias", "RoomAliasId", false⟩] } =
      { name := "Request"
        fields := [⟨"room_id", "RoomId", false⟩, ⟨"room_alias", "RoomAliasId", false⟩] } :=
  outgoing_identity_without_wrap_incoming.1 _ (by decide)

/-- Claim C9: the incoming request conversion reads the path variable
exclusively from path segment index 5 and never compares the other path
segments against the template's literals: every wire request whose body
parses and whose sixth segment percent-decodes and UTF-8-decodes and parses
into a room alias is accepted, whatever the remaining segments contain. -/
theorem create.only_segment_five_is_read
    (req : HttpRequest) (b : create.RequestBody) (seg : String)
    (dec : List Char) (a : RoomAliasId)
    (hbody : create.serdeFromSliceRequestBody req.body = .ok b)
    (hseg : (splitChar '/' (req.path.data.drop 1)).get? 5 = some seg)
    (hdec : utf8Decode (percentDecode (utf8Encode seg.data)) = some dec)
    (halias : serdeFromStrRoomAliasId (String.mk dec) = .ok a) :
    create.Request.tryFromHttp req = some (.ok { room_id := b.room_id, room_alias := a }) := by
  unfold create.Request.tryFromHttp
  simp only [hbody, hseg, hdec, halias]

/-- Witness for claim C9: a request whose first five segments (`x`, `y`,
`z`, `w`, `v`) match no literal of the template is still accepted, its alias
taken from segment index 5. -/
theorem create.only_segment_five_is_read_example :
    create.Request.tryFromHttp create.oddSegmentsRequest =
      some (.ok { room_id := ⟨"!abc:example.org"⟩, room_alias := ⟨"#room:example.org"⟩ }) :=
  create.only_segment_five_is_read create.oddSegmentsRequest ⟨⟨"!abc:example.org"⟩⟩
    "%22%23room:example.org%22" ("\"#room:example.org\"".data) ⟨"#room:example.org"⟩
    (by decide) (by decide) (by decide) (by decide)

/-- Claim C10: the outcome of the wire-response conversion depends only on
the status code: two responses with equal status codes receive the same
classification, and every response with status below 400 converts
successfully, whatever its body. -/
theorem create.response_depends_only_on_status :
    (∀ r1 r2 : HttpResponse, r1.status = r2.status →
      (create.Response.tryFromHttp r1).isOk = (create.Response.tryFromHttp r2).isOk) ∧
    (∀ r : HttpResponse, r.status < 400 → create.Response.tryFromHttp r = .ok {}) := by
  constructor
  · intro r1 r2 h
    unfold create.Response.tryFromHttp
    rw [h]
    by_cases hc : r2.status < 400
    · rw [if_pos hc, if_pos hc]
    · rw [if_neg hc, if_neg hc]
      rfl
  · intro r h
    unfold create.Response.tryFromHttp
    rw [if_pos h]

/-- Witness for claim C10: two status-200 responses with different bodies and
headers classify identically, and a status-399 response with a malformed
body converts successfully. -/
theorem create.response_depends_only_on_status_example :
    ((create.Response.tryFromHttp { status := 200, content_type := none, body := "" }).isOk =
      (create.Response.tryFromHttp
        { status := 200, content_type := some "text/plain", body := "garbage" }).isOk) ∧
    create.Response.tryFromHttp { status := 399, content_type := none, body := "malformed" } =
      .ok {} :=
  ⟨create.response_depends_only_on_status.1 _ _ rfl,
    create.response_depends_only_on_status.2 _ (by decide)⟩
